import Mathlib

/-
  Verification of the live audio translation session of OmniTranslateAi
  (src/components/LiveTranslator.tsx).

  The component is embedded as an explicit state record (one field per React
  ref / state hook, plus ground-truth flags for the device resources of the
  current session and ghost observables recording what reached the remote
  boundary and the output device), together with a functional step semantics
  over the asynchronous events that can hit the component: user toggle,
  remote onopen / onmessage / onerror / onclose, capture-frame callbacks and
  the pending promise continuations they queue, and source-ended callbacks.

  The helpers of src/utils/audioUtils (decodeAudio, decodeAudioData,
  createPcmBlob) are imported by LiveTranslator.tsx but the file is not in
  the repository snapshot; they are modelled from the spec where marked.
-/

/-- Capture sample rate of the input AudioContext (LiveTranslator.tsx,
`new AudioContext({ sampleRate: 16000 })`). -/
def inputSampleRate : Nat := 16000

/-- Playback sample rate of the output AudioContext (LiveTranslator.tsx,
`new AudioContext({ sampleRate: 24000 })`). -/
def outputSampleRate : Nat := 24000

/-- Frame size of the capture ScriptProcessorNode
(`inputCtx.createScriptProcessor(4096, 1, 1)`). -/
def captureFrameSize : Nat := 4096

/-- Modelled from the spec: an EncodedChunk received inbound
(src/utils/audioUtils is absent from src). `samples` is the number of PCM
samples the chunk decodes to at the playback rate; `valid` is whether the
chunk is well formed (a malformed chunk fails decode). -/
structure Chunk where
  samples : Nat
  valid : Bool
deriving DecidableEq

/-- Modelled from the spec: a DecodedAudioBuffer, a PCM sample buffer at the
playback sample rate with a known duration. -/
structure AudioBuf where
  numSamples : Nat
deriving DecidableEq

/-- Duration in seconds of a decoded buffer: sample count over the playback
sample rate (24 kHz). -/
def AudioBuf.duration (b : AudioBuf) : ℚ :=
  (b.numSamples : ℚ) / (outputSampleRate : ℚ)

/-- Modelled from the spec: the composition decodeAudioData ∘ decodeAudio of
src/utils/audioUtils (file absent from src), decoding an inbound chunk to a
PCM buffer at 24 kHz mono; decoding a malformed chunk fails, and per spec
section 4.3 the failure is dropped with a logged warning (the warning is
counted by the `warnings` ghost field when the handler hits this case). -/
def decodeAudioData (c : Chunk) : Option AudioBuf :=
  if c.valid then some ⟨c.samples⟩ else none

/-- Modelled from the spec: per-sample encoding used by createPcmBlob
(float sample to 16-bit PCM, here over ℤ): clamp to the 16-bit range. -/
def encodeSample (z : Int) : Int := max (-32768) (min 32767 z)

/-- Modelled from the spec: createPcmBlob of src/utils/audioUtils (file
absent from src): encodes one raw capture frame into the wire-format
payload, one encoded sample per input sample. -/
def createPcmBlob (f : List Int) : List Int := f.map encodeSample

/-- The whole component state of LiveTranslator: React state hooks, the
refs, ground-truth flags for the current session's device resources, and
ghost observables (frames that reached the remote boundary, buffers
scheduled on the output device, logged decode warnings, number of times the
start branch of toggleSession ran). -/
structure LTState where
  isActive : Bool
  statusMsg : String
  errorMsg : Option String
  inputContextRef : Bool
  outputContextRef : Bool
  nextStartTime : ℚ
  sourceCtr : Nat
  sources : List Nat
  sessionPromiseRef : Bool
  streamRef : Bool
  scriptProcessorRef : Bool
  processorDisconnected : Bool
  tracksStopped : Bool
  inputCtxClosed : Bool
  outputCtxClosed : Bool
  pendingSends : List (List Int)
  sentFrames : List (List Int)
  scheduled : List (ℚ × ℚ)
  warnings : Nat
  startsInvoked : Nat
deriving DecidableEq

/-- Initial state: `useState(false)`, status 'Ready to connect', all refs
null, cursor 0, no resources, empty ghosts. -/
def init : LTState :=
  { isActive := false
    statusMsg := "Ready to connect"
    errorMsg := none
    inputContextRef := false
    outputContextRef := false
    nextStartTime := 0
    sourceCtr := 0
    sources := []
    sessionPromiseRef := false
    streamRef := false
    scriptProcessorRef := false
    processorDisconnected := false
    tracksStopped := false
    inputCtxClosed := false
    outputCtxClosed := false
    pendingSends := []
    sentFrames := []
    scheduled := []
    warnings := 0
    startsInvoked := 0 }

/-- The cleanup function of LiveTranslator.tsx, statement by statement: each
held ref has its resource released and is then nulled; finally the session
promise ref is nulled. There is no exception handling in the source; this
definition is the no-throw execution (see cleanupExc for the may-throw
semantics). Note it touches neither the cursor nor the sources set nor any
pending send continuation. -/
def cleanup (s : LTState) : LTState :=
  let s1 := if s.scriptProcessorRef = true then
      { s with processorDisconnected := true, scriptProcessorRef := false } else s
  let s2 := if s1.streamRef = true then
      { s1 with tracksStopped := true, streamRef := false } else s1
  let s3 := if s2.inputContextRef = true then
      { s2 with inputCtxClosed := true, inputContextRef := false } else s2
  let s4 := if s3.outputContextRef = true then
      { s3 with outputCtxClosed := true, outputContextRef := false } else s3
  { s4 with sessionPromiseRef := false }

/-- The successful start branch of toggleSession: set isActive, status
'Connecting...', clear the error, create fresh input/output contexts (new,
open resources), reset the playback cursor to 0, acquire the microphone
stream, and initiate the remote connection (session promise ref set). The
processor is only created later, in onopen. -/
def startSession (s : LTState) : LTState :=
  { s with
    isActive := true
    statusMsg := "Connecting..."
    errorMsg := none
    inputContextRef := true
    outputContextRef := true
    inputCtxClosed := false
    outputCtxClosed := false
    tracksStopped := false
    processorDisconnected := false
    scriptProcessorRef := false
    nextStartTime := 0
    streamRef := true
    sessionPromiseRef := true
    startsInvoked := s.startsInvoked + 1 }

/-- toggleSession of LiveTranslator.tsx: when active it stops (setIsActive
false, status 'Disconnected', cleanup); otherwise it starts. -/
def toggleSession (s : LTState) : LTState :=
  if s.isActive = true then
    cleanup { s with isActive := false, statusMsg := "Disconnected" }
  else
    startSession s

/-- The onopen callback: set status and wire the capture pipeline (create
the ScriptProcessorNode and store it in scriptProcessorRef). -/
def onopen (s : LTState) : LTState :=
  { s with statusMsg := "Connected - Speak now", scriptProcessorRef := true }

/-- The onaudioprocess callback of the capture processor: encode the frame
with createPcmBlob and register `sessionPromise.then(session =>
session.sendRealtimeInput(...))` — i.e. queue a pending send continuation.
The callback consults no ref and performs no liveness check. -/
def onaudioprocess (f : List Int) (s : LTState) : LTState :=
  { s with pendingSends := s.pendingSends ++ [createPcmBlob f] }

/-- A queued send continuation runs (the session promise is resolved): the
encoded frame at the head of the microtask queue is sent to the remote
boundary. Nothing in the source cancels these continuations or makes them
check session liveness. -/
def sendResolve (s : LTState) : LTState :=
  match s.pendingSends with
  | [] => s
  | blob :: rest => { s with pendingSends := rest, sentFrames := s.sentFrames ++ [blob] }

/-- The onmessage callback: extract the inline audio payload (if none,
return); read outputContextRef (if null, return); advance the cursor to
max(cursor, device current time t); decode; on success create a source,
schedule it at the cursor, advance the cursor by the buffer duration and add
the source to the set. On decode failure nothing is scheduled and the
session is untouched (warning counted per the spec-modelled decoder). -/
def onmessage (audioData : Option Chunk) (t : ℚ) (s : LTState) : LTState :=
  match audioData with
  | none => s
  | some c =>
    if s.outputContextRef = true then
      let s1 := { s with nextStartTime := max s.nextStartTime t }
      match decodeAudioData c with
      | none => { s1 with warnings := s1.warnings + 1 }
      | some buf =>
        { s1 with
          scheduled := s1.scheduled ++ [(s1.nextStartTime, AudioBuf.duration buf)]
          nextStartTime := s1.nextStartTime + AudioBuf.duration buf
          sources := s1.sourceCtr :: s1.sources
          sourceCtr := s1.sourceCtr + 1 }
    else s

/-- The onerror callback of LiveTranslator.tsx, exactly as written: log,
set the error message, set isActive false. It does not call cleanup. -/
def onerror (s : LTState) : LTState :=
  { s with errorMsg := some "Connection error occurred", isActive := false }

/-- The onclose callback: if active, set status 'Connection Closed' and
isActive false. It does not call cleanup. -/
def onclose (s : LTState) : LTState :=
  if s.isActive = true then
    { s with statusMsg := "Connection Closed", isActive := false }
  else s

/-- The ended listener of a scheduled source: remove it from the set. -/
def onended (i : Nat) (s : LTState) : LTState :=
  { s with sources := s.sources.erase i }

/-- The asynchronous events that can hit the component, each carrying its
external data (capture frame contents, inbound payload and the output
device's current time at handling, id of a finished source). -/
inductive Ev where
  | toggle
  | opened
  | audioprocess (frame : List Int)
  | sendRes
  | message (audioData : Option Chunk) (t : ℚ)
  | errorEv
  | closeEv
  | ended (i : Nat)
deriving DecidableEq

/-- One event-handling step of the component. -/
def step (e : Ev) (s : LTState) : LTState :=
  match e with
  | .toggle => toggleSession s
  | .opened => onopen s
  | .audioprocess f => onaudioprocess f s
  | .sendRes => sendResolve s
  | .message d t => onmessage d t s
  | .errorEv => onerror s
  | .closeEv => onclose s
  | .ended i => onended i s

/-- Run a sequence of events from a state. -/
def run (s : LTState) : List Ev → LTState
  | [] => s
  | e :: es => run (step e s) es

/-- Whether an event can fire in a state: a capture callback only while the
processor node is attached (cleanup disconnects it), a send continuation
only while one is queued. The other events are external stimuli that can
arrive at any time (in particular the remote session is never closed by
cleanup, so messages can still arrive after teardown). -/
def validEv (s : LTState) : Ev → Bool
  | .audioprocess _ => s.scriptProcessorRef
  | .sendRes => !s.pendingSends.isEmpty
  | _ => true

/-- A trace of events each of which can fire when its turn comes. -/
def validTrace : LTState → List Ev → Bool
  | _, [] => true
  | s, e :: es => validEv s e && validTrace (step e s) es

/-- Inbound-only trace: each pair is one onmessage invocation (payload and
device current time at handling). -/
def msgEvs (ms : List (Option Chunk × ℚ)) : List Ev :=
  ms.map fun p => Ev.message p.1 p.2

/-- The scheduled list, read with a lower bound `c` on permissible starts,
contains pairwise non-overlapping buffers in order: each starts no earlier
than `c`, and each subsequent one no earlier than the previous end. -/
def NoOverlapFrom : ℚ → List (ℚ × ℚ) → Prop
  | _, [] => True
  | c, (st, d) :: rest => c ≤ st ∧ NoOverlapFrom (st + d) rest

/-- End time of the last scheduled buffer (or `c` if none). -/
def schedEnd : ℚ → List (ℚ × ℚ) → ℚ
  | c, [] => c
  | _, (st, d) :: rest => schedEnd (st + d) rest

/-- Scheduling invariant of one session: the buffers scheduled so far do not
overlap, and the cursor is at or past the end of the last one. -/
def SchedInv (s : LTState) : Prop :=
  NoOverlapFrom 0 s.scheduled ∧ schedEnd 0 s.scheduled ≤ s.nextStartTime

/-- Which release calls throw, for the exception-semantics of cleanup:
processor disconnect, track stop, input-context close, output-context
close. -/
structure RelFail where
  disconnectThrows : Bool
  trackStopThrows : Bool
  inputCloseThrows : Bool
  outputCloseThrows : Bool
deriving DecidableEq

/-- Statement 4 of cleanup under may-throw release calls, then the final
nulling of the session promise ref (which only runs if nothing threw). -/
def cleanupExc4 (ex : RelFail) (s : LTState) : LTState × Bool :=
  if s.outputContextRef = true then
    if ex.outputCloseThrows = true then (s, true)
    else ({ s with outputCtxClosed := true, outputContextRef := false, sessionPromiseRef := false }, false)
  else ({ s with sessionPromiseRef := false }, false)

/-- Statement 3 of cleanup under may-throw release calls. -/
def cleanupExc3 (ex : RelFail) (s : LTState) : LTState × Bool :=
  if s.inputContextRef = true then
    if ex.inputCloseThrows = true then (s, true)
    else cleanupExc4 ex { s with inputCtxClosed := true, inputContextRef := false }
  else cleanupExc4 ex s

/-- Statement 2 of cleanup under may-throw release calls. -/
def cleanupExc2 (ex : RelFail) (s : LTState) : LTState × Bool :=
  if s.streamRef = true then
    if ex.trackStopThrows = true then (s, true)
    else cleanupExc3 ex { s with tracksStopped := true, streamRef := false }
  else cleanupExc3 ex s

/-- cleanup of LiveTranslator.tsx under may-throw release calls, with the
JavaScript semantics of the source (which contains no try/catch): an
exception from one release call aborts the remaining statements and
propagates (second component true). -/
def cleanupExc (ex : RelFail) (s : LTState) : LTState × Bool :=
  if s.scriptProcessorRef = true then
    if ex.disconnectThrows = true then (s, true)
    else cleanupExc2 ex { s with processorDisconnected := true, scriptProcessorRef := false }
  else cleanupExc2 ex s

/-- The state of an opened session: start toggled from the initial state,
then the remote's open event (all resources acquired, capture wired). -/
def stActive : LTState := run init [Ev.toggle, Ev.opened]

/-- A concrete capture frame: 4096 zero samples. -/
def frame0 : List Int := List.replicate captureFrameSize 0

/-- A release-failure pattern in which only the processor disconnect
throws. -/
def exDisc : RelFail := ⟨true, false, false, false⟩

/-- The no-throw run of cleanupExc agrees with cleanup. -/
lemma cleanupExc_noThrow (s : LTState) :
    cleanupExc ⟨false, false, false, false⟩ s = (cleanup s, false) := by
  obtain ⟨a1, a2, a3, iRef, oRef, a6, a7, a8, a9, stR, spR, a12, a13, a14, a15, a16, a17, a18, a19, a20⟩ := s
  cases spR <;> cases stR <;> cases iRef <;> cases oRef <;> rfl

/-- A decoded buffer's duration is non-negative. -/
lemma duration_nonneg (b : AudioBuf) : 0 ≤ AudioBuf.duration b := by
  unfold AudioBuf.duration
  positivity

/-- onmessage on a payload-free message is the identity. -/
lemma onmessage_none (t : ℚ) (s : LTState) : onmessage none t s = s := rfl

/-- onmessage with the output-context ref null is the identity. -/
lemma onmessage_noctx (c : Chunk) (t : ℚ) (s : LTState)
    (h : s.outputContextRef = false) : onmessage (some c) t s = s := by
  simp [onmessage, h]

/-- onmessage on a chunk that fails decode: the cursor catches up to the
device time, the warning is counted, and nothing else changes. -/
lemma onmessage_decodeFail (c : Chunk) (t : ℚ) (s : LTState)
    (h : s.outputContextRef = true) (hd : decodeAudioData c = none) :
    onmessage (some c) t s
      = { s with nextStartTime := max s.nextStartTime t, warnings := s.warnings + 1 } := by
  simp [onmessage, h, hd]

/-- onmessage on a chunk that decodes: the buffer is scheduled at
max(cursor, device time), the cursor advances by exactly its duration, and
a fresh source is added to the set. -/
lemma onmessage_decodeOk (c : Chunk) (buf : AudioBuf) (t : ℚ) (s : LTState)
    (h : s.outputContextRef = true) (hd : decodeAudioData c = some buf) :
    onmessage (some c) t s
      = { s with
          nextStartTime := max s.nextStartTime t + AudioBuf.duration buf
          scheduled := s.scheduled ++ [(max s.nextStartTime t, AudioBuf.duration buf)]
          sources := s.sourceCtr :: s.sources
          sourceCtr := s.sourceCtr + 1 } := by
  simp [onmessage, h, hd]

/-- One onmessage step never decreases the playback cursor. -/
lemma cursor_mono_step (d : Option Chunk) (t : ℚ) (s : LTState) :
    s.nextStartTime ≤ (onmessage d t s).nextStartTime := by
  cases d with
  | none => simp [onmessage]
  | some c =>
    by_cases h : s.outputContextRef = true
    · cases hd : decodeAudioData c with
      | none =>
        rw [onmessage_decodeFail c t s h hd]
        exact le_max_left _ _
      | some buf =>
        rw [onmessage_decodeOk c buf t s h hd]
        calc s.nextStartTime ≤ max s.nextStartTime t := le_max_left _ _
          _ ≤ max s.nextStartTime t + AudioBuf.duration buf := by
              simpa using duration_nonneg buf
    · rw [onmessage_noctx c t s (by simpa using h)]

/-- Over any sequence of inbound messages the playback cursor never
decreases. -/
lemma cursor_mono_run (ms : List (Option Chunk × ℚ)) (s : LTState) :
    s.nextStartTime ≤ (run s (msgEvs ms)).nextStartTime := by
  induction ms generalizing s with
  | nil => exact le_refl _
  | cons m rest ih =>
    calc s.nextStartTime ≤ (onmessage m.1 m.2 s).nextStartTime := cursor_mono_step m.1 m.2 s
      _ ≤ (run (onmessage m.1 m.2 s) (msgEvs rest)).nextStartTime := ih _

/-- schedEnd of a list with one buffer appended is that buffer's end. -/
lemma schedEnd_append (c st d : ℚ) (l : List (ℚ × ℚ)) :
    schedEnd c (l ++ [(st, d)]) = st + d := by
  induction l generalizing c with
  | nil => rfl
  | cons p rest ih =>
    obtain ⟨st0, d0⟩ := p
    simpa [schedEnd] using ih (st0 + d0)

/-- Appending a buffer that starts no earlier than the current end keeps
the list overlap-free. -/
lemma noOverlapFrom_append (c st d : ℚ) (l : List (ℚ × ℚ))
    (h : NoOverlapFrom c l) (h2 : schedEnd c l ≤ st) :
    NoOverlapFrom c (l ++ [(st, d)]) := by
  induction l generalizing c with
  | nil => exact ⟨h2, trivial⟩
  | cons p rest ih =>
    obtain ⟨st0, d0⟩ := p
    exact ⟨h.1, ih (st0 + d0) h.2 h2⟩

/-- One onmessage step preserves the scheduling invariant. -/
lemma schedInv_step (d : Option Chunk) (t : ℚ) (s : LTState)
    (h : SchedInv s) : SchedInv (onmessage d t s) := by
  cases d with
  | none => simpa [onmessage] using h
  | some c =>
    by_cases hc : s.outputContextRef = true
    · cases hd : decodeAudioData c with
      | none =>
        rw [onmessage_decodeFail c t s hc hd]
        exact ⟨h.1, le_trans h.2 (le_max_left _ _)⟩
      | some buf =>
        rw [onmessage_decodeOk c buf t s hc hd]
        refine ⟨noOverlapFrom_append 0 _ _ _ h.1 ?_, ?_⟩
        · exact le_trans h.2 (le_max_left _ _)
        · rw [schedEnd_append]
    · rw [onmessage_noctx c t s (by simpa using hc)]
      exact h

/-- Any sequence of inbound messages preserves the scheduling invariant:
the scheduled buffers stay overlap-free and in order, with the cursor at or
past the last end. -/
lemma schedInv_run (ms : List (Option Chunk × ℚ)) (s : LTState)
    (h : SchedInv s) : SchedInv (run s (msgEvs ms)) := by
  induction ms generalizing s with
  | nil => exact h
  | cons m rest ih => exact ih _ (schedInv_step m.1 m.2 s h)

/-- cleanup does not touch the ghost start counter. -/
lemma cleanup_startsInvoked (s : LTState) :
    (cleanup s).startsInvoked = s.startsInvoked := by
  obtain ⟨a1, a2, a3, iRef, oRef, a6, a7, a8, a9, stR, spR, a12, a13, a14, a15, a16, a17, a18, a19, a20⟩ := s
  cases spR <;> cases stR <;> cases iRef <;> cases oRef <;> rfl

/-- cleanup is idempotent: after one invocation every ref is already null,
so a second invocation changes nothing. -/
lemma cleanup_idem (s : LTState) : cleanup (cleanup s) = cleanup s := by
  obtain ⟨a1, a2, a3, iRef, oRef, a6, a7, a8, a9, stR, spR, a12, a13, a14, a15, a16, a17, a18, a19, a20⟩ := s
  cases spR <;> cases stR <;> cases iRef <;> cases oRef <;> rfl

/-- onmessage does not touch the ghost start counter. -/
lemma onmessage_startsInvoked (d : Option Chunk) (t : ℚ) (s : LTState) :
    (onmessage d t s).startsInvoked = s.startsInvoked := by
  cases d with
  | none => rfl
  | some c =>
    by_cases h : s.outputContextRef = true
    · cases hd : decodeAudioData c with
      | none => rw [onmessage_decodeFail c t s h hd]
      | some buf => rw [onmessage_decodeOk c buf t s h hd]
    · rw [onmessage_noctx c t s (by simpa using h)]

/-- C1: within one live session the PlaybackCursor is monotonically
non-decreasing over any sequence of inbound messages; every newly scheduled
buffer starts exactly at max(cursor, device current time) and the cursor is
then advanced by exactly that buffer's duration; consequently the scheduled
buffers never overlap (each starts at or after the previous one's end). -/
theorem C1_playback_cursor_invariant :
    (∀ (d : Option Chunk) (t : ℚ) (s : LTState),
        s.nextStartTime ≤ (onmessage d t s).nextStartTime)
  ∧ (∀ (c : Chunk) (buf : AudioBuf) (t : ℚ) (s : LTState),
        s.outputContextRef = true → decodeAudioData c = some buf →
        (onmessage (some c) t s).scheduled
            = s.scheduled ++ [(max s.nextStartTime t, AudioBuf.duration buf)]
          ∧ (onmessage (some c) t s).nextStartTime
            = max s.nextStartTime t + AudioBuf.duration buf)
  ∧ (∀ (ms : List (Option Chunk × ℚ)) (s : LTState),
        s.nextStartTime ≤ (run s (msgEvs ms)).nextStartTime)
  ∧ (∀ (ms : List (Option Chunk × ℚ)) (s : LTState),
        SchedInv s → SchedInv (run s (msgEvs ms))) := by
  refine ⟨cursor_mono_step, ?_, cursor_mono_run, schedInv_run⟩
  intro c buf t s h hd
  rw [onmessage_decodeOk c buf t s h hd]
  exact ⟨rfl, rfl⟩

/-- Witness for C1: in an opened session with cursor 0 and device time 0, a
valid 12000-sample chunk is scheduled at 0 and the cursor advances to its
duration; the scheduling invariant holds from the initial state and is kept
after handling that chunk. -/
theorem C1_playback_cursor_invariant_witness :
    (stActive.outputContextRef = true
      ∧ decodeAudioData ⟨12000, true⟩ = some ⟨12000⟩
      ∧ (onmessage (some ⟨12000, true⟩) 0 stActive).scheduled
          = stActive.scheduled ++ [(max stActive.nextStartTime 0, AudioBuf.duration ⟨12000⟩)]
      ∧ (onmessage (some ⟨12000, true⟩) 0 stActive).nextStartTime
          = max stActive.nextStartTime 0 + AudioBuf.duration ⟨12000⟩)
  ∧ (SchedInv init ∧ SchedInv (run init (msgEvs [(some ⟨12000, true⟩, 0)]))) := by
  have hinv : SchedInv init := ⟨trivial, le_refl 0⟩
  have h2 := C1_playback_cursor_invariant.2.1 ⟨12000, true⟩ ⟨12000⟩ 0 stActive rfl rfl
  exact ⟨⟨rfl, rfl, h2.1, h2.2⟩, hinv, C1_playback_cursor_invariant.2.2.2 _ init hinv⟩

/-- C2: code-bug evidence. The onerror callback, exactly as in the source,
only records the error message and sets isActive to false; it performs no
teardown: from an opened active session, after the error event the stream
ref is still held, the microphone tracks are not stopped, neither device
context is closed and the processor is still attached, even though the
error has already been reported to the user. -/
theorem C2_error_event_no_teardown :
    (∀ s : LTState,
        onerror s = { s with errorMsg := some "Connection error occurred", isActive := false })
  ∧ (onerror stActive).errorMsg = some "Connection error occurred"
  ∧ (onerror stActive).isActive = false
  ∧ (onerror stActive).streamRef = true
  ∧ (onerror stActive).tracksStopped = false
  ∧ (onerror stActive).inputCtxClosed = false
  ∧ (onerror stActive).outputCtxClosed = false
  ∧ (onerror stActive).scriptProcessorRef = true := by
  exact ⟨fun s => rfl, rfl, rfl, rfl, rfl, rfl, rfl, rfl⟩

/-- C3: code-bug evidence. A capture frame whose send continuation is in
flight when stop is issued is still sent to the remote after stop returns:
after start, open, one capture callback and the user's stop, the trace is
valid and stop has completed (isActive false, nothing sent yet) — but when
the pending promise continuation runs, the frame reaches the remote
boundary, so one frame is sent after stop returned. -/
theorem C3_inflight_frame_sent_after_stop :
    validTrace init [Ev.toggle, Ev.opened, Ev.audioprocess frame0, Ev.toggle] = true
  ∧ (run init [Ev.toggle, Ev.opened, Ev.audioprocess frame0, Ev.toggle]).isActive = false
  ∧ (run init [Ev.toggle, Ev.opened, Ev.audioprocess frame0, Ev.toggle]).sentFrames = []
  ∧ validTrace init [Ev.toggle, Ev.opened, Ev.audioprocess frame0, Ev.toggle, Ev.sendRes] = true
  ∧ (run init [Ev.toggle, Ev.opened, Ev.audioprocess frame0, Ev.toggle,
      Ev.sendRes]).sentFrames = [createPcmBlob frame0] := by
  exact ⟨rfl, rfl, rfl, rfl, rfl⟩

/-- C4: two back-to-back inbound chunks of durations 0.5 s (12000 samples at
24 kHz) and 0.3 s (7200 samples) arriving with device current time 0 and
cursor 0: the first buffer is scheduled at t = 0, the second at t = 0.5, and
the cursor ends at 0.8. -/
theorem C4_back_to_back_chunks :
    (run init [Ev.toggle, Ev.opened, Ev.message (some ⟨12000, true⟩) 0,
        Ev.message (some ⟨7200, true⟩) 0]).scheduled
      = [(0, 1/2), (1/2, 3/10)]
  ∧ (run init [Ev.toggle, Ev.opened, Ev.message (some ⟨12000, true⟩) 0,
        Ev.message (some ⟨7200, true⟩) 0]).nextStartTime = 4/5 := by
  have hdur1 : AudioBuf.duration ⟨12000⟩ = 1/2 := by
    norm_num [AudioBuf.duration, outputSampleRate]
  have hdur2 : AudioBuf.duration ⟨7200⟩ = 3/10 := by
    norm_num [AudioBuf.duration, outputSampleRate]
  have hsa_sched : stActive.scheduled = [] := rfl
  have hsa_time : stActive.nextStartTime = 0 := rfl
  have hsa_ctx : stActive.outputContextRef = true := rfl
  have h1 := onmessage_decodeOk ⟨12000, true⟩ ⟨12000⟩ 0 stActive hsa_ctx rfl
  have h2 := onmessage_decodeOk ⟨7200, true⟩ ⟨7200⟩ 0
    (onmessage (some ⟨12000, true⟩) 0 stActive) (by rw [h1]; exact hsa_ctx) rfl
  have hrun : run init [Ev.toggle, Ev.opened, Ev.message (some ⟨12000, true⟩) 0,
      Ev.message (some ⟨7200, true⟩) 0]
      = onmessage (some ⟨7200, true⟩) 0 (onmessage (some ⟨12000, true⟩) 0 stActive) := rfl
  have hmax : max ((1:ℚ)/2) 0 = 1/2 := max_eq_left (by norm_num)
  constructor
  · rw [hrun, h2, h1]
    simp [hsa_sched, hsa_time, hdur1, hdur2, hmax]
  · rw [hrun, h2, h1]
    simp [hsa_time, hdur1, hdur2, hmax]
    norm_num

/-- C5: a decode failure on a single inbound chunk only advances the cursor
to the device time and counts the logged warning (spec-modelled decoder):
the session stays active, nothing is scheduled, no resource is torn down,
the output context stays usable, and a subsequent valid chunk is still
decoded and scheduled, appended in arrival order. -/
theorem C5_decode_failure_recovered :
    (∀ (c : Chunk) (t : ℚ) (s : LTState),
        s.outputContextRef = true → decodeAudioData c = none →
        onmessage (some c) t s
          = { s with nextStartTime := max s.nextStartTime t, warnings := s.warnings + 1 })
  ∧ (∀ (c : Chunk) (t : ℚ) (s : LTState),
        s.outputContextRef = true → decodeAudioData c = none →
          ((onmessage (some c) t s).isActive = s.isActive
        ∧ (onmessage (some c) t s).scheduled = s.scheduled
        ∧ (onmessage (some c) t s).tracksStopped = s.tracksStopped
        ∧ (onmessage (some c) t s).inputCtxClosed = s.inputCtxClosed
        ∧ (onmessage (some c) t s).outputCtxClosed = s.outputCtxClosed
        ∧ (onmessage (some c) t s).outputContextRef = true))
  ∧ (∀ (c c2 : Chunk) (buf : AudioBuf) (t t2 : ℚ) (s : LTState),
        s.outputContextRef = true → decodeAudioData c = none →
        decodeAudioData c2 = some buf →
        (onmessage (some c2) t2 (onmessage (some c) t s)).scheduled
          = s.scheduled ++ [(max (max s.nextStartTime t) t2, AudioBuf.duration buf)]) := by
  refine ⟨?_, ?_, ?_⟩
  · intro c t s h hd
    exact onmessage_decodeFail c t s h hd
  · intro c t s h hd
    rw [onmessage_decodeFail c t s h hd]
    exact ⟨rfl, rfl, rfl, rfl, rfl, h⟩
  · intro c c2 buf t t2 s h hd hd2
    rw [onmessage_decodeFail c t s h hd]
    rw [onmessage_decodeOk c2 buf t2
      { s with nextStartTime := max s.nextStartTime t, warnings := s.warnings + 1 } h hd2]

/-- Witness for C5: from the opened session, a malformed chunk leaves the
session active, and the valid chunk after it is still scheduled. -/
theorem C5_decode_failure_recovered_witness :
    stActive.outputContextRef = true
  ∧ decodeAudioData ⟨0, false⟩ = none
  ∧ decodeAudioData ⟨12000, true⟩ = some ⟨12000⟩
  ∧ (onmessage (some ⟨0, false⟩) 0 stActive).isActive = stActive.isActive
  ∧ (onmessage (some ⟨12000, true⟩) 0 (onmessage (some ⟨0, false⟩) 0 stActive)).scheduled
      = stActive.scheduled
        ++ [(max (max stActive.nextStartTime 0) 0, AudioBuf.duration ⟨12000⟩)] := by
  exact ⟨rfl, rfl, rfl, (C5_decode_failure_recovered.2.1 ⟨0, false⟩ 0 stActive rfl rfl).1,
    C5_decode_failure_recovered.2.2 ⟨0, false⟩ ⟨12000, true⟩ ⟨12000⟩ 0 0 stActive rfl rfl rfl⟩

/-- C6: counterexample to exception-safety. With all resources of an opened
session held and the processor disconnect call throwing, cleanup — which
has no per-release exception handling — aborts at its first statement: the
exception propagates and no resource at all is released, so a failure
releasing one resource does prevent the release of the remaining ones. -/
theorem C6_counterexample_disconnect_throw :
    stActive.scriptProcessorRef = true
  ∧ stActive.streamRef = true
  ∧ stActive.inputContextRef = true
  ∧ stActive.outputContextRef = true
  ∧ cleanupExc exDisc stActive = (stActive, true)
  ∧ (cleanupExc exDisc stActive).1.tracksStopped = false
  ∧ (cleanupExc exDisc stActive).1.inputCtxClosed = false
  ∧ (cleanupExc exDisc stActive).1.outputCtxClosed = false := by
  exact ⟨rfl, rfl, rfl, rfl, rfl, rfl, rfl, rfl⟩

/-- C6 amended: teardown is idempotent — a second invocation of cleanup
leaves the state unchanged — but it is not exception-safe: whenever the
processor is attached and its disconnect throws, cleanup returns with the
exception having released nothing, the remaining resources included. -/
theorem C6_teardown_idempotent_not_exception_safe :
    (∀ s : LTState, cleanup (cleanup s) = cleanup s)
  ∧ (∀ (s : LTState) (ex : RelFail),
        s.scriptProcessorRef = true → ex.disconnectThrows = true →
        cleanupExc ex s = (s, true)) := by
  refine ⟨cleanup_idem, ?_⟩
  intro s ex h1 h2
  simp [cleanupExc, h1, h2]

/-- Witness for C6 amended, at the initial state and the opened session. -/
theorem C6_teardown_idempotent_not_exception_safe_witness :
    cleanup (cleanup init) = cleanup init
  ∧ stActive.scriptProcessorRef = true
  ∧ exDisc.disconnectThrows = true
  ∧ cleanupExc exDisc stActive = (stActive, true) := by
  exact ⟨C6_teardown_idempotent_not_exception_safe.1 init, rfl, rfl,
    C6_teardown_idempotent_not_exception_safe.2 stActive exDisc rfl rfl⟩

/-- C7: the caller-visible surface is a single toggle, so a start can never
run while a session is active: toggling while active performs exactly the
stop action, the start branch runs zero times then, and the start branch —
the only way a session is ever created — runs only from an inactive state;
hence no second session is ever created beside an existing one. -/
theorem C7_no_overlapping_sessions :
    (∀ s : LTState, s.isActive = true →
        toggleSession s = cleanup { s with isActive := false, statusMsg := "Disconnected" })
  ∧ (∀ s : LTState, s.isActive = true →
        (toggleSession s).startsInvoked = s.startsInvoked)
  ∧ (∀ (s : LTState) (e : Ev),
        (step e s).startsInvoked ≠ s.startsInvoked →
        s.isActive = false ∧ e = Ev.toggle) := by
  refine ⟨?_, ?_, ?_⟩
  · intro s h
    simp [toggleSession, h]
  · intro s h
    simp [toggleSession, h, cleanup_startsInvoked]
  · intro s e hne
    cases e with
    | toggle =>
      by_cases h : s.isActive = true
      · exfalso
        apply hne
        simp [step, toggleSession, h, cleanup_startsInvoked]
      · exact ⟨by simpa using h, rfl⟩
    | opened => exact absurd rfl hne
    | audioprocess f => exact absurd rfl hne
    | sendRes =>
      exfalso
      apply hne
      cases hp : s.pendingSends with
      | nil => simp [step, sendResolve, hp]
      | cons b rest => simp [step, sendResolve, hp]
    | message d t => exact absurd (onmessage_startsInvoked d t s) hne
    | errorEv => exact absurd rfl hne
    | closeEv =>
      exfalso
      apply hne
      by_cases h : s.isActive = true <;> simp [step, onclose, h]
    | ended i => exact absurd rfl hne

/-- Witness for C7 at the opened session. -/
theorem C7_no_overlapping_sessions_witness :
    stActive.isActive = true
  ∧ (toggleSession stActive).startsInvoked = stActive.startsInvoked :=
  ⟨rfl, C7_no_overlapping_sessions.2.1 stActive rfl⟩

/-- C9: the start branch resets the PlaybackCursor to 0 (before the remote
connection is initiated, so before any inbound chunk of the new session can
be scheduled); hence cursor monotonicity holds only within one session: a
run whose first session ends with cursor 1/2 shows the cursor back at 0
after stop and restart. -/
theorem C9_cursor_reset_on_start :
    (∀ s : LTState, s.isActive = false → (toggleSession s).nextStartTime = 0)
  ∧ (run init [Ev.toggle, Ev.opened,
      Ev.message (some ⟨12000, true⟩) 0]).nextStartTime = 1/2
  ∧ (run init [Ev.toggle, Ev.opened, Ev.message (some ⟨12000, true⟩) 0,
      Ev.toggle, Ev.toggle]).nextStartTime = 0 := by
  refine ⟨?_, ?_, rfl⟩
  · intro s h
    simp [toggleSession, h, startSession]
  · have hdur1 : AudioBuf.duration ⟨12000⟩ = 1/2 := by
      norm_num [AudioBuf.duration, outputSampleRate]
    have hsa_time : stActive.nextStartTime = 0 := rfl
    have h1 := onmessage_decodeOk ⟨12000, true⟩ ⟨12000⟩ 0 stActive rfl rfl
    have hrun : run init [Ev.toggle, Ev.opened, Ev.message (some ⟨12000, true⟩) 0]
        = onmessage (some ⟨12000, true⟩) 0 stActive := rfl
    rw [hrun, h1]
    simp [hsa_time, hdur1]

/-- Witness for C9 at the initial state. -/
theorem C9_cursor_reset_on_start_witness :
    init.isActive = false ∧ (toggleSession init).nextStartTime = 0 :=
  ⟨rfl, C9_cursor_reset_on_start.1 init rfl⟩

/-- C10: an inbound message with no inline audio payload is a strict no-op,
and an inbound message arriving while the output-context ref is null (as
after teardown) is a strict no-op: the whole state — cursor and sources set
included — is unchanged. -/
theorem C10_message_noop_cases :
    (∀ (t : ℚ) (s : LTState), onmessage none t s = s)
  ∧ (∀ (c : Chunk) (t : ℚ) (s : LTState),
        s.outputContextRef = false → onmessage (some c) t s = s) :=
  ⟨onmessage_none, onmessage_noctx⟩

/-- Witness for C10: after teardown of the opened session the output ref is
null and a valid chunk's message changes nothing. -/
theorem C10_message_noop_cases_witness :
    (cleanup stActive).outputContextRef = false
  ∧ onmessage (some ⟨12000, true⟩) 0 (cleanup stActive) = cleanup stActive :=
  ⟨rfl, C10_message_noop_cases.2 ⟨12000, true⟩ 0 (cleanup stActive) rfl⟩

/-- C8: in a session where the remote reported opened, three capture frames
of 4096 mono samples (the capture frame size at 16 kHz) produce exactly
three encoded frames at the remote boundary, in capture (FIFO) order
through the microtask queue, each unmodified in length. -/
theorem C8_three_frames_fifo :
    ∀ f1 f2 f3 : List Int,
      f1.length = captureFrameSize → f2.length = captureFrameSize →
      f3.length = captureFrameSize →
      validTrace init [Ev.toggle, Ev.opened, Ev.audioprocess f1, Ev.audioprocess f2,
          Ev.audioprocess f3, Ev.sendRes, Ev.sendRes, Ev.sendRes] = true
      ∧ (run init [Ev.toggle, Ev.opened, Ev.audioprocess f1, Ev.audioprocess f2,
          Ev.audioprocess f3, Ev.sendRes, Ev.sendRes, Ev.sendRes]).sentFrames
          = [createPcmBlob f1, createPcmBlob f2, createPcmBlob f3]
      ∧ ∀ g ∈ (run init [Ev.toggle, Ev.opened, Ev.audioprocess f1, Ev.audioprocess f2,
          Ev.audioprocess f3, Ev.sendRes, Ev.sendRes, Ev.sendRes]).sentFrames,
          g.length = captureFrameSize := by
  intro f1 f2 f3 h1 h2 h3
  refine ⟨rfl, rfl, ?_⟩
  intro g hg
  have hs : (run init [Ev.toggle, Ev.opened, Ev.audioprocess f1, Ev.audioprocess f2,
      Ev.audioprocess f3, Ev.sendRes, Ev.sendRes, Ev.sendRes]).sentFrames
      = [createPcmBlob f1, createPcmBlob f2, createPcmBlob f3] := rfl
  rw [hs] at hg
  simp only [List.mem_cons, List.not_mem_nil, or_false] at hg
  rcases hg with rfl | rfl | rfl <;> simp [createPcmBlob, h1, h2, h3]

/-- Witness for C8 at three concrete 4096-sample frames. -/
theorem C8_three_frames_fifo_witness :
    frame0.length = captureFrameSize
  ∧ (run init [Ev.toggle, Ev.opened, Ev.audioprocess frame0, Ev.audioprocess frame0,
      Ev.audioprocess frame0, Ev.sendRes, Ev.sendRes, Ev.sendRes]).sentFrames
      = [createPcmBlob frame0, createPcmBlob frame0, createPcmBlob frame0] := by
  have hl : frame0.length = captureFrameSize := by simp [frame0]
  exact ⟨hl, (C8_three_frames_fifo frame0 frame0 frame0 hl hl hl).2.1⟩
